import Mathlib

/-!
Verification development for the snapchat-argos-analysis repository.

The repository contains three Python source files:
  - enhanced_token_generator.py : EnhancedArgosTokenGenerator, ArgosTokenManagerQueue,
    ArgosServiceClient, PlatformClientAttestation
  - argos_token_generator.py : ArgosTokenGenerator (basic variant)
  - token_simulator.py : ArgosTokenSimulator

The shallow embedding below models the stateful Python classes as pure Lean
functions over explicit state records.  Conventions:

  - Python dicts (token caches, pending-request maps, header maps) are modelled
    as insertion-ordered association lists (List (String × α)) with the helper
    functions alookup / aset / aerase, which reproduce dict lookup, dict
    assignment (replace-in-place or append) and dict deletion.
  - Wall-clock time (time.time(), int(time.time()*1000)) is passed explicitly
    in an Env record as integers (now in seconds, nowMs in milliseconds).
  - Randomness (secrets.token_hex, the nonce inside a freshly issued token) is
    an explicit oracle: a stream Oracle.rand : Nat → String together with a
    cursor rng carried in each state record; every draw reads the stream at the
    cursor and advances it.
  - Cryptographic digests (hashlib.sha256/sha512 hexdigests, hmac, base64) are
    parameters of the model, collected in a Crypto record, because the concrete
    digest functions are not re-implemented here; every theorem about the code
    structure is proved for an arbitrary Crypto instance, and concrete toy
    instances are used to evaluate the model on explicit inputs.
  - A fallible provider/issuer round trip is modelled with Except String; the
    Env field fetchFail injects the exception raised by the fetch, mirroring
    the try/except in the async path of the enhanced generator.
  - Calls into the attestation provider / token issuer are recorded in a trace
    (List TraceEvent), so "zero provider/issuer calls" is the trace being empty.
-/

set_option maxRecDepth 4000
set_option maxHeartbeats 1000000

/-- Association-list lookup, modelling Python dict read (`d[k]` / `d.get(k)`). -/
def alookup {α : Type} : List (String × α) → String → Option α
  | [], _ => none
  | p :: t, k => if p.1 == k then some p.2 else alookup t k

/-- Association-list assignment, modelling Python dict write `d[k] = v`:
replaces the value in place when the key is present, appends otherwise. -/
def aset {α : Type} : List (String × α) → String → α → List (String × α)
  | [], k, v => [(k, v)]
  | p :: t, k, v => if p.1 == k then (k, v) :: t else p :: aset t k v

/-- Association-list deletion, modelling Python dict `del d[k]`. -/
def aerase {α : Type} (l : List (String × α)) (k : String) : List (String × α) :=
  l.filter (fun p => p.1 != k)

/-- Python str.upper as used by method.upper(): character-wise uppercase,
written with the structural List.map so that it is kernel-computable. -/
def pyUpper (s : String) : String := String.mk (s.data.map Char.toUpper)

/-- ArgosRefreshReason enum from both generator files. -/
inductive ArgosRefreshReason
  | PREWARMING
  | PREEMPTIVEREFRESH
  | BLOCKINGREFRESH
deriving DecidableEq

/-- ArgosType enum (token types). -/
inductive ArgosType
  | NONE
  | LEGACYARGOS
  | ARGOS
  | BOTH
deriving DecidableEq

/-- ArgosMode enum (operation modes). -/
inductive ArgosMode
  | STANDARD
  | ENHANCED
  | LEGACY
deriving DecidableEq

/-- String value of an ArgosMode, matching the Python enum `.value`. -/
def ArgosMode.value : ArgosMode → String
  | .STANDARD => "STANDARD"
  | .ENHANCED => "ENHANCED"
  | .LEGACY => "LEGACY"

/-- ArgosHeaderType enum: the header names found in enhanced_token_generator.py. -/
inductive ArgosHeaderType
  | TOKEN
  | SIGNATURE
  | TRACKING
deriving DecidableEq

/-- String value of an ArgosHeaderType, matching the Python enum `.value`. -/
def ArgosHeaderType.value : ArgosHeaderType → String
  | .TOKEN => "x-snapchat-att-token"
  | .SIGNATURE => "x-snapchat-att-sign"
  | .TRACKING => "x-request-consistent-tracking-id"

/-- snap.security.TokenRecord structure (enhanced_token_generator.py). -/
structure TokenRecord where
  token : String
  expiry : Int
  token_type : ArgosType
deriving DecidableEq

/-- TokenRecord.is_expired: `time.time() > self.expiry`, with the current time
passed explicitly. -/
def TokenRecord.is_expired (r : TokenRecord) (now : Int) : Bool :=
  decide (now > r.expiry)

/-- Token usage policy structure (enhanced_token_generator.py). -/
structure TokenPolicy where
  max_uses : Option Nat
  allowed_endpoints : List String
  rate_limit_per_minute : Nat
  require_signature : Bool
deriving DecidableEq

/-- snap.security.TokenAndPolicy structure: the unit stored in the token cache. -/
structure TokenAndPolicy where
  token_record : TokenRecord
  policy : TokenPolicy
deriving DecidableEq

/-- Explicit model of wall-clock time and of the fallibility of the
provider/issuer round trip for a single call: now is time.time() in seconds,
nowMs is int(time.time()*1000), and fetchFail is some message exactly when the
fetch (the _generate_token_sync body) would raise that exception. -/
structure Env where
  now : Int
  nowMs : Int
  fetchFail : Option String
deriving DecidableEq

/-- Randomness oracle: rand n is the n-th random string the process draws
(secrets.token_hex values and the fresh nonce embedded in an issued token). -/
structure Oracle where
  rand : Nat → String

/-- Digest/encoding primitives of the model (hashlib sha256/sha512 hexdigests,
hmac variants used by the simulator, base64.b64encode of a text payload).
They are parameters: the structural theorems hold for every instance. -/
structure Crypto where
  sha256hex : String → String
  sha512hex : String → String
  b64 : String → String
  hmac_sha256_b64 : String → String → String
  hmac_sha512 : String → String → String

/-- Observable calls into the external attestation provider / token issuer:
one TraceEvent.fetch per executed provider/issuer round trip. -/
inductive TraceEvent
  | fetch : String → TraceEvent
deriving DecidableEq

/-- ArgosTokenManagerQueue state (enhanced_token_generator.py lines 110-140):
a FIFO of keys and the map from cache key to the list of registered callbacks.
Callbacks are identified by Nat ids; invoking callback c with result r is
modelled by emitting the pair (c, r). -/
structure ArgosTokenManagerQueue where
  queue : List String
  pending_requests : List (String × List Nat)
deriving DecidableEq

/-- enqueue_request: add request to queue if not already pending.  Returns the
updated state and the Python return value (True = caller is the leader). -/
def ArgosTokenManagerQueue.enqueue_request (q : ArgosTokenManagerQueue)
    (cache_key : String) (callback : Nat) : ArgosTokenManagerQueue × Bool :=
  match alookup q.pending_requests cache_key with
  | some cbs =>
      ({ q with pending_requests := aset q.pending_requests cache_key (cbs ++ [callback]) },
       false)
  | none =>
      ({ q with
          pending_requests := aset q.pending_requests cache_key [callback],
          queue := q.queue ++ [cache_key] },
       true)

/-- complete_request: pop the pending entry for the key and invoke every
registered callback with the result.  The second component is the list of
performed callback invocations, in registration order. -/
def ArgosTokenManagerQueue.complete_request (q : ArgosTokenManagerQueue)
    (cache_key : String) (result : Bool × String) :
    ArgosTokenManagerQueue × List (Nat × (Bool × String)) :=
  match alookup q.pending_requests cache_key with
  | some cbs =>
      ({ q with pending_requests := aerase q.pending_requests cache_key },
       cbs.map (fun c => (c, result)))
  | none => (q, [])

/-- EnhancedArgosTokenGenerator state (enhanced_token_generator.py lines 250-269):
token_cache maps cache keys to TokenAndPolicy; hot_tokens is the set of
frequently used keys (a duplicate-free list); token_queue is the
ArgosTokenManagerQueue; rng is the cursor into the randomness oracle.
The AttestationMetrics fields (float latencies) are observational only and are
not modelled; device_info feeds only the attestation payload, which is folded
into the opaque issued token (see generate_token_sync). -/
structure EnhancedArgosTokenGenerator where
  platform : String
  token_cache : List (String × TokenAndPolicy)
  hot_tokens : List String
  token_queue : ArgosTokenManagerQueue
  rng : Nat
deriving DecidableEq

/-- _get_cache_key: f-string "{method}:{url}:{mode.value}". -/
def EnhancedArgosTokenGenerator.get_cache_key (url method : String)
    (mode : ArgosMode) : String :=
  method ++ ":" ++ url ++ ":" ++ mode.value

/-- _get_cached_token: dict read of token_cache. -/
def EnhancedArgosTokenGenerator.get_cached_token
    (s : EnhancedArgosTokenGenerator) (cache_key : String) : Option TokenAndPolicy :=
  alookup s.token_cache cache_key

/-- _cache_token: store in token_cache, then mark the key hot when it already
is hot or when the cache (after insertion) holds fewer than 10 entries. -/
def EnhancedArgosTokenGenerator.cache_token (s : EnhancedArgosTokenGenerator)
    (cache_key : String) (token_and_policy : TokenAndPolicy) :
    EnhancedArgosTokenGenerator :=
  let cache := aset s.token_cache cache_key token_and_policy
  let hot :=
    if s.hot_tokens.contains cache_key || decide (cache.length < 10) then
      if s.hot_tokens.contains cache_key then s.hot_tokens
      else s.hot_tokens ++ [cache_key]
    else s.hot_tokens
  { s with token_cache := cache, hot_tokens := hot }

/-- _generate_signature (lines 378-401): newline-join of
[method.upper(), url, token, str(timestamp_ms)], plus the sha256 hexdigest of
the body when the body is truthy (present and non-empty, Python `if body:`),
then sha512 hexdigest of the joined string and base64 of that hexdigest. -/
def EnhancedArgosTokenGenerator.generate_signature (c : Crypto) (env : Env)
    (url method : String) (body : Option String) (token : String) : String :=
  let parts := [pyUpper method, url, token, toString env.nowMs]
  let parts :=
    match body with
    | some b => if b == "" then parts else parts ++ [c.sha256hex b]
    | none => parts
  c.b64 (c.sha512hex (String.intercalate "\n" parts))

/-- _build_headers (lines 359-376): token header, then the request signature,
then a fresh random tracking id (secrets.token_hex(16), one oracle draw).
The headers dict is built fresh on every call and is never stored anywhere. -/
def EnhancedArgosTokenGenerator.build_headers (c : Crypto) (env : Env)
    (o : Oracle) (s : EnhancedArgosTokenGenerator)
    (token url method : String) (body : Option String) :
    List (String × String) × EnhancedArgosTokenGenerator :=
  ([(ArgosHeaderType.TOKEN.value, token),
    (ArgosHeaderType.SIGNATURE.value,
      EnhancedArgosTokenGenerator.generate_signature c env url method body token),
    (ArgosHeaderType.TRACKING.value, o.rand s.rng)],
   { s with rng := s.rng + 1 })

/-- _generate_token_sync (lines 328-357), the one provider/issuer round trip:
builds the attestation payload, sends a GetTokensRequest through
ArgosServiceClient.get_tokens and returns the first TokenAndPolicy.  The
issued token is a base64 JSON blob whose distinguishing content is a fresh
128-bit nonce (ArgosServiceClient._generate_token), modelled as one oracle
draw; the service sets expiry = int(time.time() + 3600), type ARGOS, and the
policy (max_uses=None, allowed_endpoints=[url], rate 60, require_signature).
When the underlying call raises (Env.fetchFail), the exception propagates and
no state changes.  Each executed round trip emits TraceEvent.fetch url. -/
def EnhancedArgosTokenGenerator.generate_token_sync (c : Crypto) (env : Env)
    (o : Oracle) (s : EnhancedArgosTokenGenerator) (url method : String)
    (has_body : Bool) (body : Option String) (argos_mode : ArgosMode) :
    Except String (TokenAndPolicy × EnhancedArgosTokenGenerator × List TraceEvent) :=
  match env.fetchFail with
  | some e => .error e
  | none =>
      let token := o.rand s.rng
      let record : TokenRecord :=
        { token := token, expiry := env.now + 3600, token_type := ArgosType.ARGOS }
      let policy : TokenPolicy :=
        { max_uses := none, allowed_endpoints := [url],
          rate_limit_per_minute := 60, require_signature := true }
      .ok ({ token_record := record, policy := policy },
           { s with rng := s.rng + 1 },
           [TraceEvent.fetch url])

/-- get_attestation_headers (lines 271-299): check the cache first; a stored,
unexpired entry short-circuits to _build_headers with the cached token (no
fetch, empty trace); otherwise _generate_token_sync, _cache_token, then
_build_headers with the new token. -/
def EnhancedArgosTokenGenerator.get_attestation_headers (c : Crypto) (env : Env)
    (o : Oracle) (s : EnhancedArgosTokenGenerator) (url method : String)
    (has_body : Bool) (body : Option String) (argos_mode : ArgosMode) :
    Except String (List (String × String) × EnhancedArgosTokenGenerator × List TraceEvent) :=
  let cache_key := EnhancedArgosTokenGenerator.get_cache_key url method argos_mode
  let hit : Option TokenAndPolicy :=
    match EnhancedArgosTokenGenerator.get_cached_token s cache_key with
    | some tap => if tap.token_record.is_expired env.now then none else some tap
    | none => none
  match hit with
  | some tap =>
      let hs := EnhancedArgosTokenGenerator.build_headers c env o s
        tap.token_record.token url method body
      .ok (hs.1, hs.2, [])
  | none =>
      match EnhancedArgosTokenGenerator.generate_token_sync c env o s url method
          has_body body argos_mode with
      | .error e => .error e
      | .ok (tap, s1, ev) =>
          let s2 := EnhancedArgosTokenGenerator.cache_token s1 cache_key tap
          let hs := EnhancedArgosTokenGenerator.build_headers c env o s2
            tap.token_record.token url method body
          .ok (hs.1, hs.2, ev)

/-- get_argos_token_async (lines 301-326), caller side: compute the STANDARD
cache key and enqueue; the Python code never consults token_cache here.  The
Bool is True when this caller became the leader (and the generate task was
dispatched on a thread); the dispatched task itself is run_generate below. -/
def EnhancedArgosTokenGenerator.get_argos_token_async
    (s : EnhancedArgosTokenGenerator) (url method : String) (callback : Nat) :
    EnhancedArgosTokenGenerator × Bool :=
  let cache_key := EnhancedArgosTokenGenerator.get_cache_key url method ArgosMode.STANDARD
  let r := s.token_queue.enqueue_request cache_key callback
  ({ s with token_queue := r.1 }, r.2)

/-- The body of the generate() task that get_argos_token_async dispatches on a
thread: try _generate_token_sync; on success cache the token and complete the
queue entry with (True, token); on exception complete with (False, str(e)).
Returns the new state, the callback invocations performed by complete_request,
and the trace of provider/issuer calls. -/
def EnhancedArgosTokenGenerator.run_generate (c : Crypto) (env : Env)
    (o : Oracle) (s : EnhancedArgosTokenGenerator) (url method : String) :
    EnhancedArgosTokenGenerator × List (Nat × (Bool × String)) × List TraceEvent :=
  let cache_key := EnhancedArgosTokenGenerator.get_cache_key url method ArgosMode.STANDARD
  match EnhancedArgosTokenGenerator.generate_token_sync c env o s url method
      false none ArgosMode.STANDARD with
  | .ok (tap, s1, ev) =>
      let s2 := EnhancedArgosTokenGenerator.cache_token s1 cache_key tap
      let q := s2.token_queue.complete_request cache_key (true, tap.token_record.token)
      ({ s2 with token_queue := q.1 }, q.2, ev)
  | .error e =>
      let q := s.token_queue.complete_request cache_key (false, e)
      ({ s with token_queue := q.1 }, q.2, [])

/-- refresh_tokens (lines 421-449): BLOCKINGREFRESH clears token_cache and
hot_tokens; PREEMPTIVEREFRESH collects every key whose time to expiry is under
300 seconds and deletes those keys; PREWARMING is a no-op (pass). -/
def EnhancedArgosTokenGenerator.refresh_tokens (env : Env)
    (s : EnhancedArgosTokenGenerator) (reason : ArgosRefreshReason) :
    EnhancedArgosTokenGenerator :=
  match reason with
  | .BLOCKINGREFRESH => { s with token_cache := [], hot_tokens := [] }
  | .PREEMPTIVEREFRESH =>
      let keys_to_refresh :=
        (s.token_cache.filter
          (fun p => decide (p.2.token_record.expiry - env.now < 300))).map Prod.fst
      { s with token_cache :=
          keys_to_refresh.foldl (fun cch k => aerase cch k) s.token_cache }
  | .PREWARMING => s

/-- DeviceInfo dataclass (argos_token_generator.py). -/
structure DeviceInfo where
  device_id : String
  platform : String
  os_version : String
  app_version : String
  model : String
  manufacturer : String
deriving DecidableEq

/-- ArgosConfiguration dataclass (argos_token_generator.py). -/
structure ArgosConfiguration where
  api_endpoint : String
  timeout : Nat := 30
  retry_count : Nat := 3
  enable_logging : Bool := true
deriving DecidableEq

/-- ArgosTokenGenerator state (argos_token_generator.py lines 66-80):
token_cache maps cache keys to (token, expiry) pairs; token_expiry is the
default TTL of 3600 seconds. -/
structure ArgosTokenGenerator where
  config : ArgosConfiguration
  device_info : DeviceInfo
  token_cache : List (String × (String × Int))
  token_expiry : Int := 3600
deriving DecidableEq

/-- The HEADER_NAME class constant of ArgosTokenGenerator. -/
def ArgosTokenGenerator.HEADER_NAME : String := "x-snapchat-att-token"

/-- The json.dumps(fingerprint_data, sort_keys=True) string inside
generate_device_fingerprint: device fields plus the millisecond timestamp,
keys emitted in sorted order with Python's default separators. -/
def ArgosTokenGenerator.fingerprint_data_str (d : DeviceInfo) (tsMs : Int) : String :=
  "\x7b\"app_version\": \"" ++ d.app_version ++
  "\", \"device_id\": \"" ++ d.device_id ++
  "\", \"manufacturer\": \"" ++ d.manufacturer ++
  "\", \"model\": \"" ++ d.model ++
  "\", \"os_version\": \"" ++ d.os_version ++
  "\", \"platform\": \"" ++ d.platform ++
  "\", \"timestamp\": " ++ toString tsMs ++ "\x7d"

/-- generate_device_fingerprint (lines 82-101): sha256 hexdigest of the
serialized device information. -/
def ArgosTokenGenerator.generate_device_fingerprint (c : Crypto) (d : DeviceInfo)
    (tsMs : Int) : String :=
  c.sha256hex (ArgosTokenGenerator.fingerprint_data_str d tsMs)

/-- generate_request_signature (lines 103-129): newline-join of
[method.upper(), url, str(timestamp_ms), device_fingerprint], plus the sha256
hexdigest of the body when the body is truthy, then the sha512 hexdigest of
the joined string (returned as-is, with no base64 wrapping). -/
def ArgosTokenGenerator.generate_request_signature (c : Crypto) (env : Env)
    (d : DeviceInfo) (url method : String) (body : Option String) : String :=
  let parts := [pyUpper method, url, toString env.nowMs,
                ArgosTokenGenerator.generate_device_fingerprint c d env.nowMs]
  let parts :=
    match body with
    | some b => if b == "" then parts else parts ++ [c.sha256hex b]
    | none => parts
  c.sha512hex (String.intercalate "\n" parts)

/-- The json.dumps(payload, sort_keys=True) string built in generate_token
from create_attestation_payload plus the added "mode" entry: keys in sorted
order (app_version, device_fingerprint, mode, platform, request_info,
signature, timestamp), request_info nested with sorted keys, has_body being
`body is not None`. -/
def ArgosTokenGenerator.payload_json (c : Crypto) (env : Env) (d : DeviceInfo)
    (url method : String) (body : Option String) (mode : ArgosMode) : String :=
  "\x7b\"app_version\": \"" ++ d.app_version ++
  "\", \"device_fingerprint\": \"" ++
    ArgosTokenGenerator.generate_device_fingerprint c d env.nowMs ++
  "\", \"mode\": \"" ++ mode.value ++
  "\", \"platform\": \"" ++ d.platform ++
  "\", \"request_info\": \x7b\"has_body\": " ++
    (if body.isSome then "true" else "false") ++
  ", \"method\": \"" ++ method ++ "\", \"url\": \"" ++ url ++
  "\"\x7d, \"signature\": \"" ++
    ArgosTokenGenerator.generate_request_signature c env d url method body ++
  "\", \"timestamp\": " ++ toString env.nowMs ++ "\x7d"

/-- The json.dumps(token_data) string of generate_token: insertion order
v, p (base64 of the payload json), t, m with default separators. -/
def ArgosTokenGenerator.token_data_json (c : Crypto) (env : Env) (d : DeviceInfo)
    (url method : String) (body : Option String) (mode : ArgosMode) : String :=
  "\x7b\"v\": 1, \"p\": \"" ++
    c.b64 (ArgosTokenGenerator.payload_json c env d url method body mode) ++
  "\", \"t\": " ++ toString env.nowMs ++
  ", \"m\": \"" ++ mode.value ++ "\"\x7d"

/-- generate_token (lines 155-200): cache key f"{url}:{method}:{mode.value}";
a cached pair whose expiry lies in the future (time.time() < expiry) is
returned as-is with no payload build; otherwise the token is built from the
attestation payload, cached with expiry now + token_expiry, and returned.
Building the payload is the provider round trip, traced as TraceEvent.fetch. -/
def ArgosTokenGenerator.generate_token (c : Crypto) (env : Env)
    (s : ArgosTokenGenerator) (url method : String) (body : Option String)
    (mode : ArgosMode) : String × ArgosTokenGenerator × List TraceEvent :=
  let cache_key := url ++ ":" ++ method ++ ":" ++ mode.value
  let hit : Option String :=
    match alookup s.token_cache cache_key with
    | some te => if decide (env.now < te.2) then some te.1 else none
    | none => none
  match hit with
  | some token => (token, s, [])
  | none =>
      let token := c.b64 (ArgosTokenGenerator.token_data_json c env s.device_info
        url method body mode)
      let cache := aset s.token_cache cache_key (token, env.now + s.token_expiry)
      (token, { s with token_cache := cache }, [TraceEvent.fetch url])

/-- get_attestation_headers (lines 202-213): generate (or fetch) the token and
return the three headers HEADER_NAME, X-Snapchat-Client-Version and
X-Snapchat-Platform. -/
def ArgosTokenGenerator.get_attestation_headers (c : Crypto) (env : Env)
    (s : ArgosTokenGenerator) (url method : String) (body : Option String)
    (mode : ArgosMode) :
    List (String × String) × ArgosTokenGenerator × List TraceEvent :=
  let r := ArgosTokenGenerator.generate_token c env s url method body mode
  ([(ArgosTokenGenerator.HEADER_NAME, r.1),
    ("X-Snapchat-Client-Version", s.device_info.app_version),
    ("X-Snapchat-Platform", s.device_info.platform)],
   r.2.1, r.2.2)

/-- refresh_token (lines 215-233): BLOCKINGREFRESH clears the cache;
PREEMPTIVEREFRESH collects every key whose expiry - now is under 300 seconds
and deletes those keys; any other reason changes nothing. -/
def ArgosTokenGenerator.refresh_token (env : Env) (s : ArgosTokenGenerator)
    (reason : ArgosRefreshReason) : ArgosTokenGenerator :=
  match reason with
  | .BLOCKINGREFRESH => { s with token_cache := [] }
  | .PREEMPTIVEREFRESH =>
      let keys_to_remove :=
        (s.token_cache.filter (fun p => decide (p.2.2 - env.now < 300))).map Prod.fst
      { s with token_cache :=
          keys_to_remove.foldl (fun cch k => aerase cch k) s.token_cache }
  | .PREWARMING => s

/-- ArgosTokenSimulator state (token_simulator.py lines 29-57): the cache maps
f"{method}:{url}" keys to dicts holding the full header map and its expiry. -/
structure ArgosTokenSimulator where
  device_id : String
  key_version : Nat
  token_cache : List (String × (List (String × String) × Int))
  rng : Nat
deriving DecidableEq

/-- The json string of _simulate_hardware_attestation (sorted keys:
device_id, integrity, nonce, platform, timestamp; integrity nested sorted). -/
def ArgosTokenSimulator.attestation_json (c : Crypto) (sim : ArgosTokenSimulator)
    (tsMs : Int) (nonce : String) : String :=
  "\x7b\"device_id\": \"" ++ sim.device_id ++
  "\", \"integrity\": \x7b\"app_signature\": \"" ++ c.sha256hex "app_cert" ++
  "\", \"attestation_version\": 3, \"boot_state\": \"VERIFIED\", \"security_level\": \"HARDWARE\"\x7d" ++
  ", \"nonce\": \"" ++ nonce ++ "\", \"platform\": \"Android\", \"timestamp\": " ++
  toString tsMs ++ "\x7d"

/-- The json.dumps(payload, sort_keys=True) string of _generate_proto_payload:
sorted keys attestation, body_hash (only when the body is truthy),
device_info, method, timestamp, url. -/
def ArgosTokenSimulator.proto_payload_json (c : Crypto) (env : Env)
    (sim : ArgosTokenSimulator) (url method : String) (body : Option String)
    (nonce : String) : String :=
  "\x7b\"attestation\": " ++ ArgosTokenSimulator.attestation_json c sim env.nowMs nonce ++
  (match body with
   | some b => if b == "" then "" else ", \"body_hash\": \"" ++ c.sha256hex b ++ "\""
   | none => "") ++
  ", \"device_info\": \x7b\"app_version\": \"13.51.0.56\", \"device_id\": \"" ++
  sim.device_id ++ "\", \"platform\": \"Android\"\x7d, \"method\": \"" ++ method ++
  "\", \"timestamp\": " ++ toString env.nowMs ++ ", \"url\": \"" ++ url ++ "\"\x7d"

/-- The compact json of _build_token_structure (separators (',', ':'),
insertion order v, t, m, d, p, k, n). -/
def ArgosTokenSimulator.token_structure_json (env : Env)
    (sim : ArgosTokenSimulator) (signed_payload nonce : String) : String :=
  "\x7b\"v\":1,\"t\":" ++ toString env.nowMs ++ ",\"m\":\"STANDARD\",\"d\":\"" ++
  sim.device_id ++ "\",\"p\":\"" ++ signed_payload ++ "\",\"k\":" ++
  toString sim.key_version ++ ",\"n\":\"" ++ nonce ++ "\"\x7d"

/-- generate_token (token_simulator.py lines 153-212): cache key
f"{method}:{url}"; a cached entry with expiry > now is returned whole (the
ENTIRE previously built header map, tracking id included, with no new draws);
otherwise: draw the attestation nonce, hmac-sign the proto payload with the
device key placeholder, draw the token nonce, build and base64 the token,
hmac-sha512 the signature data (method, url, token, timestamp, optional body
digest) with the server key placeholder, draw the tracking id, build the three
headers, and cache them with a one-hour expiry. -/
def ArgosTokenSimulator.generate_token (c : Crypto) (env : Env) (o : Oracle)
    (sim : ArgosTokenSimulator) (url method : String) (body : Option String) :
    List (String × String) × ArgosTokenSimulator × List TraceEvent :=
  let cache_key := method ++ ":" ++ url
  let hit : Option (List (String × String)) :=
    match alookup sim.token_cache cache_key with
    | some he => if decide (he.2 > env.now) then some he.1 else none
    | none => none
  match hit with
  | some headers => (headers, sim, [])
  | none =>
      let att_nonce := o.rand sim.rng
      let proto := ArgosTokenSimulator.proto_payload_json c env sim url method body att_nonce
      let signed_payload := c.hmac_sha256_b64 "DEVICE_KEY_NOT_AVAILABLE" proto
      let tok_nonce := o.rand (sim.rng + 1)
      let token := c.b64 (ArgosTokenSimulator.token_structure_json env sim signed_payload tok_nonce)
      let signature_data := method ++ "\n" ++ url ++ "\n" ++ token ++ "\n" ++
        toString env.nowMs ++
        (match body with
         | some b => if b == "" then "" else "\n" ++ c.sha256hex b
         | none => "")
      let signature := c.b64 (c.hmac_sha512 "SERVER_KEY_NOT_AVAILABLE" signature_data)
      let tracking := o.rand (sim.rng + 2)
      let headers := [("x-snapchat-att-token", token),
                      ("x-snapchat-att-sign", signature),
                      ("x-request-consistent-tracking-id", tracking)]
      let cache := aset sim.token_cache cache_key (headers, env.now + 3600)
      (headers,
       { sim with rng := sim.rng + 3, token_cache := cache },
       [TraceEvent.fetch url])

/-- Modelled from the spec wording of C7 (SignatureEngine): the canonical
newline-joined string METHOD, URL, TOKEN, TIMESTAMP with the BODY_DIGEST
appended when present.  Used to compare the code's signing string with the
spec's canonical form. -/
def canonical_string_to_sign (method url token timestamp : String)
    (body_digest : Option String) : String :=
  String.intercalate "\n" ([method, url, token, timestamp] ++ body_digest.toList)

/-- The body digest the enhanced generator appends: the sha256 hexdigest of
the raw body when the body is truthy (present and non-empty), nothing
otherwise. -/
def body_digest_of (c : Crypto) (body : Option String) : Option String :=
  match body with
  | some b => if b == "" then none else some (c.sha256hex b)
  | none => none

/-- Total projection out of Except, used to name the components of a
successful call in closed statements. -/
def okOr {α : Type} (dflt : α) : Except String α → α
  | .ok x => x
  | .error _ => dflt

/-- Toy digest primitives: distinct, injective tag-wrapping string functions,
used to evaluate the model on concrete inputs. -/
def toyCrypto : Crypto :=
  { sha256hex := fun s => "s256[" ++ s ++ "]",
    sha512hex := fun s => "s512[" ++ s ++ "]",
    b64 := fun s => "b64[" ++ s ++ "]",
    hmac_sha256_b64 := fun k m => "hm256[" ++ k ++ "|" ++ m ++ "]",
    hmac_sha512 := fun k m => "hm512[" ++ k ++ "|" ++ m ++ "]" }

/-- Toy digest primitives for the C7 counterexample with the sha512 hexdigest
taken as the identity, so the string the code actually signs is exposed. -/
def c7crypto : Crypto :=
  { sha256hex := fun s => "s256[" ++ s ++ "]",
    sha512hex := fun s => s,
    b64 := fun s => "b64[" ++ s ++ "]",
    hmac_sha256_b64 := fun k m => "hm256[" ++ k ++ "|" ++ m ++ "]",
    hmac_sha512 := fun k m => "hm512[" ++ k ++ "|" ++ m ++ "]" }

/-- Concrete randomness stream for evaluations: r0, r1, r2, ... -/
def oracle0 : Oracle := { rand := fun n => "r" ++ toString n }

/-- Concrete injective randomness stream (the n-th draw is n letters a). -/
def oracleRep : Oracle := { rand := fun n => String.mk (List.replicate n 'a') }

/-- Concrete times: a call at second 0 (millisecond 5), a later call at
second 1 (millisecond 6), and a call whose fetch raises "boom". -/
def env0 : Env := { now := 0, nowMs := 5, fetchFail := none }

/-- A later successful call (see env0). -/
def env1 : Env := { now := 1, nowMs := 6, fetchFail := none }

/-- A call whose provider/issuer round trip raises "boom" (see env0). -/
def envFail : Env := { now := 0, nowMs := 5, fetchFail := some "boom" }

/-- Concrete token record: token OLD, expiring at second 1000. -/
def rec0 : TokenRecord := { token := "OLD", expiry := 1000, token_type := ArgosType.ARGOS }

/-- Concrete token record close to expiry (second 100). -/
def recNear : TokenRecord := { token := "NEAR", expiry := 100, token_type := ArgosType.ARGOS }

/-- Concrete policy. -/
def pol0 : TokenPolicy :=
  { max_uses := none, allowed_endpoints := ["u"], rate_limit_per_minute := 60,
    require_signature := true }

/-- Concrete cached entry holding token OLD. -/
def tap0 : TokenAndPolicy := { token_record := rec0, policy := pol0 }

/-- Concrete cached entry close to expiry. -/
def tapNear : TokenAndPolicy := { token_record := recNear, policy := pol0 }

/-- Empty request queue. -/
def queue0 : ArgosTokenManagerQueue := { queue := [], pending_requests := [] }

/-- Queue with one pending request for key k with registered callback 5. -/
def queue1 : ArgosTokenManagerQueue := { queue := ["k"], pending_requests := [("k", [5])] }

/-- Enhanced generator state with an unexpired token OLD cached for
GET u STANDARD and nothing pending. -/
def egen0 : EnhancedArgosTokenGenerator :=
  { platform := "Android", token_cache := [("GET:u:STANDARD", tap0)],
    hot_tokens := [], token_queue := queue0, rng := 0 }

/-- Enhanced generator state with one near-expiry and one fresh cache entry. -/
def egen6 : EnhancedArgosTokenGenerator :=
  { platform := "Android", token_cache := [("a", tapNear), ("b", tap0)],
    hot_tokens := [], token_queue := queue0, rng := 0 }

/-- Concrete device information. -/
def dev0 : DeviceInfo :=
  { device_id := "d", platform := "Android", os_version := "13",
    app_version := "13.51.0.56", model := "Pixel 7", manufacturer := "Google" }

/-- Concrete configuration. -/
def cfg0 : ArgosConfiguration := { api_endpoint := "https://api.snapchat.com" }

/-- Basic generator state with an unexpired token TOKB cached for
u GET STANDARD. -/
def bgen0 : ArgosTokenGenerator :=
  { config := cfg0, device_info := dev0,
    token_cache := [("u:GET:STANDARD", ("TOKB", 1000))], token_expiry := 3600 }

/-- Basic generator state with one near-expiry and one fresh cache entry. -/
def bgen6 : ArgosTokenGenerator :=
  { config := cfg0, device_info := dev0,
    token_cache := [("a", ("t1", 100)), ("b", ("t2", 1000))], token_expiry := 3600 }

/-- Simulator state with an empty cache. -/
def sim0 : ArgosTokenSimulator :=
  { device_id := "dev", key_version := 1, token_cache := [], rng := 0 }

/-- A previously built header map, as the simulator caches it. -/
def simHdr : List (String × String) :=
  [("x-snapchat-att-token", "CT"), ("x-snapchat-att-sign", "CS"),
   ("x-request-consistent-tracking-id", "CR")]

/-- Simulator state with the header map simHdr cached for POST u, unexpired. -/
def sim1 : ArgosTokenSimulator :=
  { device_id := "dev", key_version := 1, token_cache := [("POST:u", (simHdr, 1000))],
    rng := 0 }

/-- Default triple used by okOr when projecting enhanced-generator results. -/
def edflt : List (String × String) × EnhancedArgosTokenGenerator × List TraceEvent :=
  ([], egen0, [])

/-- First of two consecutive enhanced calls on egen0 (cache hit at second 0). -/
def w8r1 : List (String × String) × EnhancedArgosTokenGenerator × List TraceEvent :=
  okOr edflt (EnhancedArgosTokenGenerator.get_attestation_headers toyCrypto env0
    oracleRep egen0 "u" "GET" false none ArgosMode.STANDARD)

/-- Second consecutive enhanced call, on the state left by the first. -/
def w8r2 : List (String × String) × EnhancedArgosTokenGenerator × List TraceEvent :=
  okOr edflt (EnhancedArgosTokenGenerator.get_attestation_headers toyCrypto env1
    oracleRep w8r1.2.1 "u" "GET" false none ArgosMode.STANDARD)

/-- Queue with a pending request for the GET u STANDARD key and two
registered callbacks 3 and 9. -/
def queue4 : ArgosTokenManagerQueue :=
  { queue := ["GET:u:STANDARD"], pending_requests := [("GET:u:STANDARD", [3, 9])] }

/-- Enhanced generator state with an empty cache and queue4 pending. -/
def egen4 : EnhancedArgosTokenGenerator :=
  { platform := "Android", token_cache := [], hot_tokens := [],
    token_queue := queue4, rng := 0 }

/-- The TokenRecord inside the TokenAndPolicy produced by a successful
provider/issuer round trip when the randomness cursor is i
(see generate_token_sync). -/
def issued_record (env : Env) (o : Oracle) (i : Nat) : TokenRecord :=
  { token := o.rand i, expiry := env.now + 3600, token_type := ArgosType.ARGOS }

/-- The TokenPolicy attached by the service to a freshly issued token. -/
def issued_policy (url : String) : TokenPolicy :=
  { max_uses := none, allowed_endpoints := [url], rate_limit_per_minute := 60, require_signature := true }

/-- The TokenAndPolicy produced by a successful provider/issuer round trip. -/
def issued_tap (env : Env) (o : Oracle) (i : Nat) (url : String) : TokenAndPolicy :=
  { token_record := issued_record env o i, policy := issued_policy url }

/-- Lookup after assignment at the same key. -/
theorem alookup_aset_self {α : Type} (l : List (String × α)) (k : String) (v : α) :
    alookup (aset l k v) k = some v := by
  induction l with
  | nil => simp [aset, alookup]
  | cons p t ih =>
      cases h : (p.1 == k) with
      | true => simp [aset, alookup, h]
      | false => simp [aset, alookup, h, ih]

/-- Lookup after assignment at a different key. -/
theorem alookup_aset_ne {α : Type} (l : List (String × α)) (k k' : String) (v : α)
    (h : k' ≠ k) : alookup (aset l k v) k' = alookup l k' := by
  induction l with
  | nil =>
      have hb : (k == k') = false := by
        simp only [beq_eq_false_iff_ne]
        exact fun he => h he.symm
      simp [aset, alookup, hb]
  | cons p t ih =>
      cases hp : (p.1 == k) with
      | true =>
          have hb : (k == k') = false := by
            simp only [beq_eq_false_iff_ne]
            exact fun he => h he.symm
          have hpk : p.1 = k := by simpa using hp
          have hpk' : (p.1 == k') = false := by
            simp only [beq_eq_false_iff_ne]
            intro he
            exact h (he.symm.trans hpk)
          simp [aset, alookup, hp, hb, hpk']
      | false => simp [aset, alookup, hp, ih]

/-- Lookup after deletion at the deleted key. -/
theorem alookup_aerase_self {α : Type} (l : List (String × α)) (k : String) :
    alookup (aerase l k) k = none := by
  induction l with
  | nil => simp [aerase, alookup]
  | cons p t ih =>
      unfold aerase at ih ⊢
      rw [List.filter_cons]
      cases h : (p.1 == k) with
      | true =>
          have hb : (p.1 != k) = false := by simp [bne, h]
          simpa [hb] using ih
      | false =>
          have hb : (p.1 != k) = true := by simp [bne, h]
          simpa [hb, alookup, h] using ih

/-- Folding deletions over a key list filters out exactly those keys. -/
theorem foldl_aerase {α : Type} (K : List String) :
    ∀ c : List (String × α),
      K.foldl (fun cch k => aerase cch k) c = c.filter (fun p => !(K.contains p.1)) := by
  induction K with
  | nil => intro c; simp
  | cons k K ih =>
      intro c
      rw [List.foldl_cons, ih (aerase c k)]
      unfold aerase
      rw [List.filter_filter]
      apply List.filter_congr
      intro p _
      rw [List.contains_cons]
      cases hk : (p.1 == k) with
      | true => simp [bne, hk]
      | false => simp [bne, hk]

/-- With duplicate-free keys, two entries sharing a key are the same entry. -/
theorem entry_eq_of_nodup {α : Type} :
    ∀ (c : List (String × α)), (c.map Prod.fst).Nodup →
      ∀ p q : String × α, p ∈ c → q ∈ c → p.1 = q.1 → p = q := by
  intro c
  induction c with
  | nil => intro _ p q hp; cases hp
  | cons a t ih =>
      intro hnd p q hp hq hpq
      have hna : a.1 ∉ t.map Prod.fst := (List.nodup_cons.mp hnd).1
      have hnt : (t.map Prod.fst).Nodup := (List.nodup_cons.mp hnd).2
      cases hp with
      | head =>
          cases hq with
          | head => rfl
          | tail _ hq' =>
              exact absurd (hpq ▸ List.mem_map_of_mem Prod.fst hq') hna
      | tail _ hp' =>
          cases hq with
          | head =>
              exact absurd (hpq ▸ List.mem_map_of_mem Prod.fst hp') hna
          | tail _ hq' => exact ih hnt p q hp' hq' hpq

/-- A successful lookup means the key occurs among the stored keys. -/
theorem alookup_mem_keys {α : Type} :
    ∀ (t : List (String × α)) (k : String) (w : α),
      alookup t k = some w → k ∈ t.map Prod.fst := by
  intro t
  induction t with
  | nil => intro k w h; simp [alookup] at h
  | cons q r ih =>
      intro k w h
      cases hq : (q.1 == k) with
      | true =>
          have : q.1 = k := by simpa using hq
          simp [this]
      | false =>
          simp only [alookup, hq, if_neg] at h
          have := ih k w (by simpa [alookup, hq] using h)
          simp [this]

/-- Lookup of an absent key stays absent after filtering. -/
theorem alookup_filter_none {α : Type} (f : String × α → Bool) :
    ∀ (c : List (String × α)) (k : String),
      alookup c k = none → alookup (c.filter f) k = none := by
  intro c
  induction c with
  | nil => intro k _; simp [alookup]
  | cons p t ih =>
      intro k h
      cases hp : (p.1 == k) with
      | true => simp [alookup, hp] at h
      | false =>
          have h' : alookup t k = none := by simpa [alookup, hp] using h
          rw [List.filter_cons]
          cases hfp : f p with
          | true => simp [alookup, hp, ih k h']
          | false => simp [ih k h']

/-- Lookup in a filtered association list with duplicate-free keys. -/
theorem alookup_filter_nodup {α : Type} (f : String × α → Bool) :
    ∀ (c : List (String × α)), (c.map Prod.fst).Nodup →
      ∀ k v, alookup c k = some v →
        alookup (c.filter f) k = (if f (k, v) then some v else none) := by
  intro c
  induction c with
  | nil => intro _ k v h; simp [alookup] at h
  | cons p t ih =>
      intro hnd k v h
      have hna : p.1 ∉ t.map Prod.fst := (List.nodup_cons.mp (by simpa using hnd)).1
      have hnt : (t.map Prod.fst).Nodup := (List.nodup_cons.mp (by simpa using hnd)).2
      cases hp : (p.1 == k) with
      | true =>
          have hk : p.1 = k := by simpa using hp
          have hv : v = p.2 := by
            have h2 := h
            simp [alookup, hp] at h2
            exact h2.symm
          have hpkv : (k, v) = p := by
            rw [← hk, hv]
          have htnone : alookup (t.filter f) k = none := by
            apply alookup_filter_none
            cases hh : alookup t k with
            | none => rfl
            | some w =>
                rw [hk] at hna
                exact absurd (alookup_mem_keys t k w hh) hna
          rw [List.filter_cons]
          cases hfp : f p with
          | true =>
              have hfkv : f (k, v) = true := by rw [hpkv]; exact hfp
              simp [hfkv, alookup, hp, ← hv]
          | false =>
              have hfkv : f (k, v) = false := by rw [hpkv]; exact hfp
              simp [hfkv, htnone]
      | false =>
          have h' : alookup t k = some v := by simpa [alookup, hp] using h
          rw [List.filter_cons]
          cases hfp : f p with
          | true => simpa [alookup, hp] using ih hnt k v h'
          | false => simpa using ih hnt k v h'

/-- Path characterization: an unexpired cache hit in get_attestation_headers
returns the cached token with a toy-free, fully explicit header list, advances
only the randomness cursor (one tracking-id draw), and performs no fetch. -/
theorem enhanced_get_hit (c : Crypto) (env : Env) (o : Oracle)
    (s : EnhancedArgosTokenGenerator) (url method : String) (hb : Bool)
    (body : Option String) (mode : ArgosMode) (tap : TokenAndPolicy)
    (h1 : alookup s.token_cache
      (EnhancedArgosTokenGenerator.get_cache_key url method mode) = some tap)
    (h2 : tap.token_record.is_expired env.now = false) :
    EnhancedArgosTokenGenerator.get_attestation_headers c env o s url method hb body mode =
      .ok ([(ArgosHeaderType.TOKEN.value, tap.token_record.token),
            (ArgosHeaderType.SIGNATURE.value,
              EnhancedArgosTokenGenerator.generate_signature c env url method body
                tap.token_record.token),
            (ArgosHeaderType.TRACKING.value, o.rand s.rng)],
           { s with rng := s.rng + 1 }, []) := by
  simp [EnhancedArgosTokenGenerator.get_attestation_headers,
        EnhancedArgosTokenGenerator.get_cached_token, h1, h2,
        EnhancedArgosTokenGenerator.build_headers]

/-- Path characterization: with no cached entry for the key and a succeeding
fetch, get_attestation_headers performs exactly one fetch, returns the freshly
issued token (the draw at the current cursor) and a tracking id (the next
draw), stores the new entry, and ends with the cursor advanced by two. -/
theorem enhanced_get_absent (c : Crypto) (env : Env) (o : Oracle)
    (s : EnhancedArgosTokenGenerator) (url method : String) (hb : Bool)
    (body : Option String) (mode : ArgosMode)
    (h1 : alookup s.token_cache
      (EnhancedArgosTokenGenerator.get_cache_key url method mode) = none)
    (hf : env.fetchFail = none) :
    EnhancedArgosTokenGenerator.get_attestation_headers c env o s url method hb body mode =
      .ok ([(ArgosHeaderType.TOKEN.value, o.rand s.rng),
            (ArgosHeaderType.SIGNATURE.value,
              EnhancedArgosTokenGenerator.generate_signature c env url method body
                (o.rand s.rng)),
            (ArgosHeaderType.TRACKING.value, o.rand (s.rng + 1))],
           { EnhancedArgosTokenGenerator.cache_token { s with rng := s.rng + 1 }
               (EnhancedArgosTokenGenerator.get_cache_key url method mode)
               (issued_tap env o s.rng url) with rng := s.rng + 2 },
           [TraceEvent.fetch url]) := by
  simp [EnhancedArgosTokenGenerator.get_attestation_headers,
        EnhancedArgosTokenGenerator.get_cached_token, h1, hf,
        EnhancedArgosTokenGenerator.generate_token_sync,
        EnhancedArgosTokenGenerator.build_headers,
        issued_tap, issued_record, issued_policy,
        EnhancedArgosTokenGenerator.cache_token]

/-- Path characterization: an expired cache hit behaves like an absent key
(new fetch, fresh token, cursor advanced by two). -/
theorem enhanced_get_expired (c : Crypto) (env : Env) (o : Oracle)
    (s : EnhancedArgosTokenGenerator) (url method : String) (hb : Bool)
    (body : Option String) (mode : ArgosMode) (tap : TokenAndPolicy)
    (h1 : alookup s.token_cache
      (EnhancedArgosTokenGenerator.get_cache_key url method mode) = some tap)
    (h2 : tap.token_record.is_expired env.now = true)
    (hf : env.fetchFail = none) :
    EnhancedArgosTokenGenerator.get_attestation_headers c env o s url method hb body mode =
      .ok ([(ArgosHeaderType.TOKEN.value, o.rand s.rng),
            (ArgosHeaderType.SIGNATURE.value,
              EnhancedArgosTokenGenerator.generate_signature c env url method body
                (o.rand s.rng)),
            (ArgosHeaderType.TRACKING.value, o.rand (s.rng + 1))],
           { EnhancedArgosTokenGenerator.cache_token { s with rng := s.rng + 1 }
               (EnhancedArgosTokenGenerator.get_cache_key url method mode)
               (issued_tap env o s.rng url) with rng := s.rng + 2 },
           [TraceEvent.fetch url]) := by
  simp [EnhancedArgosTokenGenerator.get_attestation_headers,
        EnhancedArgosTokenGenerator.get_cached_token, h1, h2, hf,
        EnhancedArgosTokenGenerator.generate_token_sync,
        EnhancedArgosTokenGenerator.build_headers,
        issued_tap, issued_record, issued_policy,
        EnhancedArgosTokenGenerator.cache_token]

/-- Path characterization of the dispatched async task on fetch success:
one fetch, the new token cached, and complete_request run on the unchanged
queue with result (True, fresh token). -/
theorem run_generate_ok (c : Crypto) (env : Env) (o : Oracle)
    (s : EnhancedArgosTokenGenerator) (url method : String)
    (hf : env.fetchFail = none) :
    EnhancedArgosTokenGenerator.run_generate c env o s url method =
      ({ EnhancedArgosTokenGenerator.cache_token { s with rng := s.rng + 1 }
           (EnhancedArgosTokenGenerator.get_cache_key url method ArgosMode.STANDARD)
           (issued_tap env o s.rng url) with
         token_queue := (s.token_queue.complete_request
           (EnhancedArgosTokenGenerator.get_cache_key url method ArgosMode.STANDARD)
           (true, o.rand s.rng)).1 },
       (s.token_queue.complete_request
         (EnhancedArgosTokenGenerator.get_cache_key url method ArgosMode.STANDARD)
         (true, o.rand s.rng)).2,
       [TraceEvent.fetch url]) := by
  simp [EnhancedArgosTokenGenerator.run_generate,
        EnhancedArgosTokenGenerator.generate_token_sync, hf,
        EnhancedArgosTokenGenerator.cache_token,
        issued_tap, issued_record, issued_policy]

/-- Path characterization of the dispatched async task on fetch failure:
no cache change, no fetch event, and complete_request run with
(False, message). -/
theorem run_generate_err (c : Crypto) (env : Env) (o : Oracle)
    (s : EnhancedArgosTokenGenerator) (url method e : String)
    (hf : env.fetchFail = some e) :
    EnhancedArgosTokenGenerator.run_generate c env o s url method =
      ({ s with token_queue := (s.token_queue.complete_request
           (EnhancedArgosTokenGenerator.get_cache_key url method ArgosMode.STANDARD)
           (false, e)).1 },
       (s.token_queue.complete_request
         (EnhancedArgosTokenGenerator.get_cache_key url method ArgosMode.STANDARD)
         (false, e)).2,
       []) := by
  simp [EnhancedArgosTokenGenerator.run_generate,
        EnhancedArgosTokenGenerator.generate_token_sync, hf]

/-- C1: for every key, enqueue_request(key, cb) returns true (leader) exactly
when no request for that key is pending, and returns false after registering
cb as a follower otherwise; a subsequent complete_request(key, result)
removes the pending marker for the key and invokes every registered callback
for that key with the identical result value. -/
theorem C1_request_coalescer (q : ArgosTokenManagerQueue) (k : String) (cb : Nat)
    (r : Bool × String) :
    ((q.enqueue_request k cb).2 = true ↔ alookup q.pending_requests k = none)
    ∧ (alookup q.pending_requests k = none →
        alookup (q.enqueue_request k cb).1.pending_requests k = some [cb])
    ∧ (∀ cbs, alookup q.pending_requests k = some cbs →
        (q.enqueue_request k cb).2 = false ∧
        alookup (q.enqueue_request k cb).1.pending_requests k = some (cbs ++ [cb]))
    ∧ (∀ cbs, alookup q.pending_requests k = some cbs →
        alookup (q.complete_request k r).1.pending_requests k = none ∧
        (q.complete_request k r).2 = cbs.map (fun c => (c, r)) ∧
        ∀ x ∈ (q.complete_request k r).2, x.2 = r) := by
  constructor
  · cases h : alookup q.pending_requests k with
    | some cbs => simp [ArgosTokenManagerQueue.enqueue_request, h]
    | none => simp [ArgosTokenManagerQueue.enqueue_request, h]
  constructor
  · intro h
    simp [ArgosTokenManagerQueue.enqueue_request, h, alookup_aset_self]
  constructor
  · intro cbs h
    simp [ArgosTokenManagerQueue.enqueue_request, h, alookup_aset_self]
  · intro cbs h
    refine ⟨?_, ?_, ?_⟩
    · simp [ArgosTokenManagerQueue.complete_request, h, alookup_aerase_self]
    · simp [ArgosTokenManagerQueue.complete_request, h]
    · intro x hx
      simp [ArgosTokenManagerQueue.complete_request, h] at hx
      rcases hx with ⟨cc, hcc, hx⟩
      rw [← hx]

/-- Witness for C1 on the concrete queue with one pending callback. -/
theorem C1_request_coalescer_witness :
    alookup queue1.pending_requests "k" = some [5] ∧
    (queue1.enqueue_request "k" 7).2 = false ∧
    alookup (queue1.enqueue_request "k" 7).1.pending_requests "k" = some [5, 7] ∧
    alookup (queue1.complete_request "k" (true, "T")).1.pending_requests "k" = none ∧
    (queue1.complete_request "k" (true, "T")).2 = [(5, (true, "T"))] := by
  have h : alookup queue1.pending_requests "k" = some [5] := by decide
  exact ⟨h,
    ((C1_request_coalescer queue1 "k" 7 (true, "T")).2.2.1 [5] h).1,
    ((C1_request_coalescer queue1 "k" 7 (true, "T")).2.2.1 [5] h).2,
    ((C1_request_coalescer queue1 "k" 7 (true, "T")).2.2.2 [5] h).1,
    ((C1_request_coalescer queue1 "k" 7 (true, "T")).2.2.2 [5] h).2.1⟩

/-- C2: a call whose cache key maps to a stored, unexpired entry returns the
cached token in the x-snapchat-att-token header with no provider/issuer call
(empty trace) and an unchanged cache, in the enhanced generator, the basic
generator, and the simulator alike. -/
theorem C2_cache_hit (c : Crypto) (env : Env) (o : Oracle) :
    (∀ (s : EnhancedArgosTokenGenerator) (url method : String) (hb : Bool)
       (body : Option String) (mode : ArgosMode) (tap : TokenAndPolicy),
      alookup s.token_cache
        (EnhancedArgosTokenGenerator.get_cache_key url method mode) = some tap →
      tap.token_record.is_expired env.now = false →
      ∃ hdrs s1,
        EnhancedArgosTokenGenerator.get_attestation_headers c env o s url method
            hb body mode = .ok (hdrs, s1, []) ∧
        alookup hdrs "x-snapchat-att-token" = some tap.token_record.token ∧
        s1.token_cache = s.token_cache)
    ∧ (∀ (s : ArgosTokenGenerator) (url method : String) (body : Option String)
         (mode : ArgosMode) (tok : String) (exp : Int),
        alookup s.token_cache (url ++ ":" ++ method ++ ":" ++ mode.value) = some (tok, exp) →
        env.now < exp →
        ArgosTokenGenerator.generate_token c env s url method body mode = (tok, s, []))
    ∧ (∀ (sim : ArgosTokenSimulator) (url method : String) (body : Option String)
         (hs : List (String × String)) (exp : Int),
        alookup sim.token_cache (method ++ ":" ++ url) = some (hs, exp) →
        exp > env.now →
        ArgosTokenSimulator.generate_token c env o sim url method body = (hs, sim, [])) := by
  refine ⟨?_, ?_, ?_⟩
  · intro s url method hb body mode tap h1 h2
    refine ⟨_, _, enhanced_get_hit c env o s url method hb body mode tap h1 h2, ?_, rfl⟩
    simp [alookup, ArgosHeaderType.value]
  · intro s url method body mode tok exp h1 h2
    simp [ArgosTokenGenerator.generate_token, h1, h2]
  · intro sim url method body hs exp h1 h2
    simp [ArgosTokenSimulator.generate_token, h1, h2]

/-- Witness for C2 on concrete cached states of all three generators. -/
theorem C2_cache_hit_witness :
    (∃ hdrs s1,
      EnhancedArgosTokenGenerator.get_attestation_headers toyCrypto env0 oracle0
          egen0 "u" "GET" false none ArgosMode.STANDARD = .ok (hdrs, s1, []) ∧
      alookup hdrs "x-snapchat-att-token" = some tap0.token_record.token ∧
      s1.token_cache = egen0.token_cache)
    ∧ ArgosTokenGenerator.generate_token toyCrypto env0 bgen0 "u" "GET" none
        ArgosMode.STANDARD = ("TOKB", bgen0, [])
    ∧ ArgosTokenSimulator.generate_token toyCrypto env0 oracle0 sim1 "u" "POST" none =
        (simHdr, sim1, []) :=
  ⟨(C2_cache_hit toyCrypto env0 oracle0).1 egen0 "u" "GET" false none
      ArgosMode.STANDARD tap0 (by decide) (by decide),
   (C2_cache_hit toyCrypto env0 oracle0).2.1 bgen0 "u" "GET" none
      ArgosMode.STANDARD "TOKB" 1000 (by decide) (by decide),
   (C2_cache_hit toyCrypto env0 oracle0).2.2 sim1 "u" "POST" none simHdr 1000
      (by decide) (by decide)⟩

/-- C3 counterexample: egen0 holds an unexpired cached token OLD for the
GET u STANDARD key, yet get_argos_token_async becomes leader and its
dispatched task performs a provider fetch and delivers the freshly issued
token r0, not the cached one — the async entry point never consults the
token cache, contrary to the claimed identical logic with the sync path. -/
theorem C3_counterexample :
    alookup egen0.token_cache
      (EnhancedArgosTokenGenerator.get_cache_key "u" "GET" ArgosMode.STANDARD) = some tap0 ∧
    tap0.token_record.is_expired env0.now = false ∧
    (EnhancedArgosTokenGenerator.get_argos_token_async egen0 "u" "GET" 7).2 = true ∧
    (EnhancedArgosTokenGenerator.run_generate toyCrypto env0 oracle0
      (EnhancedArgosTokenGenerator.get_argos_token_async egen0 "u" "GET" 7).1
      "u" "GET").2.2 = [TraceEvent.fetch "u"] ∧
    (EnhancedArgosTokenGenerator.run_generate toyCrypto env0 oracle0
      (EnhancedArgosTokenGenerator.get_argos_token_async egen0 "u" "GET" 7).1
      "u" "GET").2.1 = [(7, (true, "r0"))] ∧
    "r0" ≠ tap0.token_record.token := by decide

/-- C3 (amended): get_argos_token_async never consults the token cache — the
caller becomes leader exactly when no request for the key is pending
(regardless of any cached token), a follower's callback is registered behind
the pending entry, and the leader's dispatched task always performs a fetch,
delivering the newly issued token to every registered callback exactly once
(here: to the single registered callback) and clearing the pending marker. -/
theorem C3_async_amended (c : Crypto) (env : Env) (o : Oracle)
    (s : EnhancedArgosTokenGenerator) (url method : String) (cb : Nat) :
    ((EnhancedArgosTokenGenerator.get_argos_token_async s url method cb).2 = true ↔
      alookup s.token_queue.pending_requests
        (EnhancedArgosTokenGenerator.get_cache_key url method ArgosMode.STANDARD) = none)
    ∧ (alookup s.token_queue.pending_requests
         (EnhancedArgosTokenGenerator.get_cache_key url method ArgosMode.STANDARD) = none →
       env.fetchFail = none →
        (EnhancedArgosTokenGenerator.run_generate c env o
          (EnhancedArgosTokenGenerator.get_argos_token_async s url method cb).1
          url method).2.1 = [(cb, (true, o.rand s.rng))] ∧
        (EnhancedArgosTokenGenerator.run_generate c env o
          (EnhancedArgosTokenGenerator.get_argos_token_async s url method cb).1
          url method).2.2 = [TraceEvent.fetch url] ∧
        alookup (EnhancedArgosTokenGenerator.run_generate c env o
          (EnhancedArgosTokenGenerator.get_argos_token_async s url method cb).1
          url method).1.token_queue.pending_requests
          (EnhancedArgosTokenGenerator.get_cache_key url method ArgosMode.STANDARD) = none)
    ∧ (∀ cbs, alookup s.token_queue.pending_requests
         (EnhancedArgosTokenGenerator.get_cache_key url method ArgosMode.STANDARD) = some cbs →
        (EnhancedArgosTokenGenerator.get_argos_token_async s url method cb).2 = false ∧
        alookup (EnhancedArgosTokenGenerator.get_argos_token_async s url method cb).1.token_queue.pending_requests
          (EnhancedArgosTokenGenerator.get_cache_key url method ArgosMode.STANDARD) = some (cbs ++ [cb])) := by
  refine ⟨?_, ?_, ?_⟩
  · cases h : alookup s.token_queue.pending_requests
        (EnhancedArgosTokenGenerator.get_cache_key url method ArgosMode.STANDARD) with
    | some cbs =>
        simp [EnhancedArgosTokenGenerator.get_argos_token_async,
              ArgosTokenManagerQueue.enqueue_request, h]
    | none =>
        simp [EnhancedArgosTokenGenerator.get_argos_token_async,
              ArgosTokenManagerQueue.enqueue_request, h]
  · intro h hf
    rw [run_generate_ok c env o _ url method hf]
    simp [EnhancedArgosTokenGenerator.get_argos_token_async,
          ArgosTokenManagerQueue.enqueue_request, h,
          ArgosTokenManagerQueue.complete_request,
          EnhancedArgosTokenGenerator.cache_token,
          alookup_aset_self, alookup_aerase_self]
  · intro cbs h
    simp [EnhancedArgosTokenGenerator.get_argos_token_async,
          ArgosTokenManagerQueue.enqueue_request, h, alookup_aset_self]

/-- Witness for the amended C3 on egen0 (empty pending map). -/
theorem C3_async_amended_witness :
    (EnhancedArgosTokenGenerator.run_generate toyCrypto env0 oracle0
      (EnhancedArgosTokenGenerator.get_argos_token_async egen0 "u" "GET" 7).1
      "u" "GET").2.1 = [(7, (true, oracle0.rand egen0.rng))] ∧
    (EnhancedArgosTokenGenerator.run_generate toyCrypto env0 oracle0
      (EnhancedArgosTokenGenerator.get_argos_token_async egen0 "u" "GET" 7).1
      "u" "GET").2.2 = [TraceEvent.fetch "u"] ∧
    alookup (EnhancedArgosTokenGenerator.run_generate toyCrypto env0 oracle0
      (EnhancedArgosTokenGenerator.get_argos_token_async egen0 "u" "GET" 7).1
      "u" "GET").1.token_queue.pending_requests
      (EnhancedArgosTokenGenerator.get_cache_key "u" "GET" ArgosMode.STANDARD) = none :=
  (C3_async_amended toyCrypto env0 oracle0 egen0 "u" "GET" 7).2.1 (by decide) rfl

/-- C4: when the fetch raises, the dispatched task caches nothing (the token
cache is unchanged, so the key stays absent for the next caller), performs no
successful provider call, clears the pending marker, and delivers the same
error result (False, message) to every registered waiter, leader and
followers alike. -/
theorem C4_failure_no_cache (c : Crypto) (env : Env) (o : Oracle)
    (s : EnhancedArgosTokenGenerator) (url method e : String) (cbs : List Nat)
    (hf : env.fetchFail = some e)
    (hp : alookup s.token_queue.pending_requests
      (EnhancedArgosTokenGenerator.get_cache_key url method ArgosMode.STANDARD) = some cbs) :
    (EnhancedArgosTokenGenerator.run_generate c env o s url method).1.token_cache = s.token_cache ∧
    (EnhancedArgosTokenGenerator.run_generate c env o s url method).2.2 = [] ∧
    (EnhancedArgosTokenGenerator.run_generate c env o s url method).2.1 =
      cbs.map (fun cb => (cb, (false, e))) ∧
    alookup (EnhancedArgosTokenGenerator.run_generate c env o s url method).1.token_queue.pending_requests
      (EnhancedArgosTokenGenerator.get_cache_key url method ArgosMode.STANDARD) = none ∧
    ∀ x ∈ (EnhancedArgosTokenGenerator.run_generate c env o s url method).2.1,
      x.2 = (false, e) := by
  rw [run_generate_err c env o s url method e hf]
  refine ⟨rfl, rfl, ?_, ?_, ?_⟩
  · simp [ArgosTokenManagerQueue.complete_request, hp]
  · simp [ArgosTokenManagerQueue.complete_request, hp, alookup_aerase_self]
  · intro x hx
    simp [ArgosTokenManagerQueue.complete_request, hp] at hx
    rcases hx with ⟨cc, hcc, hx⟩
    rw [← hx]

/-- Witness for C4 with a failing fetch and two registered waiters. -/
theorem C4_failure_no_cache_witness :
    (EnhancedArgosTokenGenerator.run_generate toyCrypto envFail oracle0 egen4
      "u" "GET").1.token_cache = egen4.token_cache ∧
    (EnhancedArgosTokenGenerator.run_generate toyCrypto envFail oracle0 egen4
      "u" "GET").2.2 = [] ∧
    (EnhancedArgosTokenGenerator.run_generate toyCrypto envFail oracle0 egen4
      "u" "GET").2.1 = [(3, (false, "boom")), (9, (false, "boom"))] :=
  ⟨(C4_failure_no_cache toyCrypto envFail oracle0 egen4 "u" "GET" "boom" [3, 9]
      rfl (by decide)).1,
   (C4_failure_no_cache toyCrypto envFail oracle0 egen4 "u" "GET" "boom" [3, 9]
      rfl (by decide)).2.1,
   (C4_failure_no_cache toyCrypto envFail oracle0 egen4 "u" "GET" "boom" [3, 9]
      rfl (by decide)).2.2.1⟩

/-- The collect-then-delete loop of the PREEMPTIVEREFRESH branch equals a
filter keeping exactly the entries that fail the collection condition, when
the cache keys are duplicate-free (as Python dict keys are). -/
theorem preemptive_filter {α : Type} (cond : String × α → Bool)
    (c : List (String × α)) (h : (c.map Prod.fst).Nodup) :
    ((c.filter cond).map Prod.fst).foldl (fun cch k => aerase cch k) c =
      c.filter (fun p => !(cond p)) := by
  rw [foldl_aerase]
  apply List.filter_congr
  intro p hp
  have hcp : (((c.filter cond).map Prod.fst).contains p.1) = cond p := by
    cases hcond : cond p with
    | true =>
        have hmem : p.1 ∈ (c.filter cond).map Prod.fst :=
          List.mem_map_of_mem Prod.fst (List.mem_filter.mpr ⟨hp, hcond⟩)
        simpa [List.elem_iff] using hmem
    | false =>
        cases hcc : (((c.filter cond).map Prod.fst).contains p.1) with
        | false => rfl
        | true =>
            exfalso
            have hmem : p.1 ∈ (c.filter cond).map Prod.fst := by
              simpa [List.elem_iff] using hcc
            rcases List.mem_map.mp hmem with ⟨q, hq, hq1⟩
            have hqc := List.mem_filter.mp hq
            have hqp : q = p := entry_eq_of_nodup c h q p hqc.1 hp hq1
            rw [hqp] at hqc
            rw [hqc.2] at hcond
            simp at hcond
  rw [hcp]

/-- C5: refresh with reason BLOCKINGREFRESH empties the entire token cache of
both generators (every key becomes absent), and a get_attestation_headers
call issued after the refresh takes the miss path (one fetch) and returns the
freshly issued token — hence never a token that differs from the new draw,
in particular none of the pre-refresh cached tokens. -/
theorem C5_blocking_refresh (c : Crypto) (env : Env) (o : Oracle) :
    (∀ (s : EnhancedArgosTokenGenerator) (k : String),
      (EnhancedArgosTokenGenerator.refresh_tokens env s ArgosRefreshReason.BLOCKINGREFRESH).token_cache = [] ∧
      alookup (EnhancedArgosTokenGenerator.refresh_tokens env s ArgosRefreshReason.BLOCKINGREFRESH).token_cache k = none)
    ∧ (∀ (s : ArgosTokenGenerator) (k : String),
        (ArgosTokenGenerator.refresh_token env s ArgosRefreshReason.BLOCKINGREFRESH).token_cache = [] ∧
        alookup (ArgosTokenGenerator.refresh_token env s ArgosRefreshReason.BLOCKINGREFRESH).token_cache k = none)
    ∧ (∀ (s : EnhancedArgosTokenGenerator) (url method : String) (hb : Bool)
         (body : Option String) (mode : ArgosMode),
        env.fetchFail = none →
        ((EnhancedArgosTokenGenerator.get_attestation_headers c env o
            (EnhancedArgosTokenGenerator.refresh_tokens env s ArgosRefreshReason.BLOCKINGREFRESH)
            url method hb body mode).toOption.map (fun x => x.2.2)) = some [TraceEvent.fetch url] ∧
        ((EnhancedArgosTokenGenerator.get_attestation_headers c env o
            (EnhancedArgosTokenGenerator.refresh_tokens env s ArgosRefreshReason.BLOCKINGREFRESH)
            url method hb body mode).toOption.map
              (fun x => alookup x.1 "x-snapchat-att-token")) = some (some (o.rand s.rng)) ∧
        (∀ (k : String) (tap : TokenAndPolicy), alookup s.token_cache k = some tap →
          tap.token_record.token ≠ o.rand s.rng →
          ((EnhancedArgosTokenGenerator.get_attestation_headers c env o
              (EnhancedArgosTokenGenerator.refresh_tokens env s ArgosRefreshReason.BLOCKINGREFRESH)
              url method hb body mode).toOption.map
                (fun x => alookup x.1 "x-snapchat-att-token")) ≠
            some (some tap.token_record.token))) := by
  refine ⟨?_, ?_, ?_⟩
  · intro s k
    exact ⟨rfl, rfl⟩
  · intro s k
    exact ⟨rfl, rfl⟩
  · intro s url method hb body mode hf
    have habs : alookup (EnhancedArgosTokenGenerator.refresh_tokens env s
        ArgosRefreshReason.BLOCKINGREFRESH).token_cache
        (EnhancedArgosTokenGenerator.get_cache_key url method mode) = none := rfl
    have hget := enhanced_get_absent c env o
      (EnhancedArgosTokenGenerator.refresh_tokens env s ArgosRefreshReason.BLOCKINGREFRESH)
      url method hb body mode habs hf
    rw [hget]
    refine ⟨rfl, ?_, ?_⟩
    · simp [Except.toOption, alookup, ArgosHeaderType.value,
            EnhancedArgosTokenGenerator.refresh_tokens]
    · intro k tap hk hne
      simp only [Except.toOption, Option.map]
      intro heq
      apply hne
      have h2 := Option.some.inj (Option.some.inj heq)
      have h3 : o.rand s.rng = tap.token_record.token := by
        simpa [alookup, ArgosHeaderType.value,
               EnhancedArgosTokenGenerator.refresh_tokens] using h2
      exact h3.symm

/-- Witness for C5 on egen0 and bgen0: the caches are emptied and the
post-refresh call returns the fresh token r0, not the pre-refresh token OLD. -/
theorem C5_blocking_refresh_witness :
    (EnhancedArgosTokenGenerator.refresh_tokens env0 egen0 ArgosRefreshReason.BLOCKINGREFRESH).token_cache = [] ∧
    (ArgosTokenGenerator.refresh_token env0 bgen0 ArgosRefreshReason.BLOCKINGREFRESH).token_cache = [] ∧
    ((EnhancedArgosTokenGenerator.get_attestation_headers toyCrypto env0 oracle0
        (EnhancedArgosTokenGenerator.refresh_tokens env0 egen0 ArgosRefreshReason.BLOCKINGREFRESH)
        "u" "GET" false none ArgosMode.STANDARD).toOption.map
          (fun x => alookup x.1 "x-snapchat-att-token")) = some (some (oracle0.rand egen0.rng)) ∧
    ((EnhancedArgosTokenGenerator.get_attestation_headers toyCrypto env0 oracle0
        (EnhancedArgosTokenGenerator.refresh_tokens env0 egen0 ArgosRefreshReason.BLOCKINGREFRESH)
        "u" "GET" false none ArgosMode.STANDARD).toOption.map
          (fun x => alookup x.1 "x-snapchat-att-token")) ≠
      some (some tap0.token_record.token) :=
  ⟨((C5_blocking_refresh toyCrypto env0 oracle0).1 egen0 "x").1,
   ((C5_blocking_refresh toyCrypto env0 oracle0).2.1 bgen0 "x").1,
   ((C5_blocking_refresh toyCrypto env0 oracle0).2.2 egen0 "u" "GET" false none
      ArgosMode.STANDARD rfl).2.1,
   ((C5_blocking_refresh toyCrypto env0 oracle0).2.2 egen0 "u" "GET" false none
      ArgosMode.STANDARD rfl).2.2 "GET:u:STANDARD" tap0 (by decide) (by decide)⟩

/-- C6: refresh with reason PREEMPTIVEREFRESH removes exactly the entries
whose remaining time to expiry is under 300 seconds: every cached entry with
less than 300 seconds remaining is deleted, every entry with at least 300
seconds remaining survives unchanged, and absent keys stay absent — in both
generators (caches have duplicate-free keys, as Python dict keys do). -/
theorem C6_preemptive_refresh (env : Env) :
    (∀ (s : EnhancedArgosTokenGenerator), (s.token_cache.map Prod.fst).Nodup →
      ∀ (k : String) (tap : TokenAndPolicy),
        (alookup s.token_cache k = some tap →
          (tap.token_record.expiry - env.now < 300 →
            alookup (EnhancedArgosTokenGenerator.refresh_tokens env s
              ArgosRefreshReason.PREEMPTIVEREFRESH).token_cache k = none) ∧
          (300 ≤ tap.token_record.expiry - env.now →
            alookup (EnhancedArgosTokenGenerator.refresh_tokens env s
              ArgosRefreshReason.PREEMPTIVEREFRESH).token_cache k = some tap)) ∧
        (alookup s.token_cache k = none →
          alookup (EnhancedArgosTokenGenerator.refresh_tokens env s
            ArgosRefreshReason.PREEMPTIVEREFRESH).token_cache k = none))
    ∧ (∀ (s : ArgosTokenGenerator), (s.token_cache.map Prod.fst).Nodup →
        ∀ (k tok : String) (exp : Int),
          (alookup s.token_cache k = some (tok, exp) →
            (exp - env.now < 300 →
              alookup (ArgosTokenGenerator.refresh_token env s
                ArgosRefreshReason.PREEMPTIVEREFRESH).token_cache k = none) ∧
            (300 ≤ exp - env.now →
              alookup (ArgosTokenGenerator.refresh_token env s
                ArgosRefreshReason.PREEMPTIVEREFRESH).token_cache k = some (tok, exp))) ∧
          (alookup s.token_cache k = none →
            alookup (ArgosTokenGenerator.refresh_token env s
              ArgosRefreshReason.PREEMPTIVEREFRESH).token_cache k = none)) := by
  constructor
  · intro s hnd k tap
    have hc : (EnhancedArgosTokenGenerator.refresh_tokens env s
        ArgosRefreshReason.PREEMPTIVEREFRESH).token_cache =
        s.token_cache.filter
          (fun p => !(decide (p.2.token_record.expiry - env.now < 300))) := by
      simp only [EnhancedArgosTokenGenerator.refresh_tokens]
      exact preemptive_filter (fun p => decide (p.2.token_record.expiry - env.now < 300))
        s.token_cache hnd
    constructor
    · intro hsome
      constructor
      · intro hlt
        have hd : decide (tap.token_record.expiry - env.now < 300) = true :=
          decide_eq_true hlt
        rw [hc, alookup_filter_nodup _ _ hnd _ _ hsome]
        simp [hd]
      · intro hge
        have hd : decide (tap.token_record.expiry - env.now < 300) = false :=
          decide_eq_false (not_lt.mpr hge)
        rw [hc, alookup_filter_nodup _ _ hnd _ _ hsome]
        simp [hd]
    · intro hnone
      rw [hc]
      exact alookup_filter_none _ _ _ hnone
  · intro s hnd k tok exp
    have hc : (ArgosTokenGenerator.refresh_token env s
        ArgosRefreshReason.PREEMPTIVEREFRESH).token_cache =
        s.token_cache.filter (fun p => !(decide (p.2.2 - env.now < 300))) := by
      simp only [ArgosTokenGenerator.refresh_token]
      exact preemptive_filter (fun p => decide (p.2.2 - env.now < 300)) s.token_cache hnd
    constructor
    · intro hsome
      constructor
      · intro hlt
        have hd : decide ((tok, exp).2 - env.now < 300) = true := decide_eq_true hlt
        rw [hc, alookup_filter_nodup _ _ hnd _ _ hsome]
        simp [hd]
      · intro hge
        have hd : decide ((tok, exp).2 - env.now < 300) = false :=
          decide_eq_false (not_lt.mpr hge)
        rw [hc, alookup_filter_nodup _ _ hnd _ _ hsome]
        simp [hd]
    · intro hnone
      rw [hc]
      exact alookup_filter_none _ _ _ hnone

/-- Witness for C6 on concrete two-entry caches at second 0: the entry
expiring at 100 (under 300 seconds left) is removed, the entry expiring at
1000 survives, in both generators. -/
theorem C6_preemptive_refresh_witness :
    alookup (EnhancedArgosTokenGenerator.refresh_tokens env0 egen6
      ArgosRefreshReason.PREEMPTIVEREFRESH).token_cache "a" = none ∧
    alookup (EnhancedArgosTokenGenerator.refresh_tokens env0 egen6
      ArgosRefreshReason.PREEMPTIVEREFRESH).token_cache "b" = some tap0 ∧
    alookup (ArgosTokenGenerator.refresh_token env0 bgen6
      ArgosRefreshReason.PREEMPTIVEREFRESH).token_cache "a" = none ∧
    alookup (ArgosTokenGenerator.refresh_token env0 bgen6
      ArgosRefreshReason.PREEMPTIVEREFRESH).token_cache "b" = some ("t2", 1000) :=
  ⟨(((C6_preemptive_refresh env0).1 egen6 (by decide) "a" tapNear).1 (by decide)).1 (by decide),
   (((C6_preemptive_refresh env0).1 egen6 (by decide) "b" tap0).1 (by decide)).2 (by decide),
   (((C6_preemptive_refresh env0).2 bgen6 (by decide) "a" "t1" 100).1 (by decide)).1 (by decide),
   (((C6_preemptive_refresh env0).2 bgen6 (by decide) "b" "t2" 1000).1 (by decide)).2 (by decide)⟩

/-- C7 (amended): the enhanced generator's request signature is the base64 of
the sha512 hexdigest of exactly the canonical newline-joined string
METHOD(uppercased), URL, TOKEN, TIMESTAMP, with the sha256 hexdigest of the
raw body appended when the body is present and non-empty (the raw body never
enters the string); both signing functions are deterministic in their inputs.
The basic generator's generate_request_signature, however, signs the string
METHOD(uppercased), URL, TIMESTAMP, DEVICE_FINGERPRINT — it contains no token
— and returns the bare sha512 hexdigest without base64. -/
theorem C7_signature_amended (c : Crypto) (env : Env) (d : DeviceInfo)
    (url method token : String) (body : Option String) :
    EnhancedArgosTokenGenerator.generate_signature c env url method body token =
      c.b64 (c.sha512hex (canonical_string_to_sign (pyUpper method) url token
        (toString env.nowMs) (body_digest_of c body)))
    ∧ ArgosTokenGenerator.generate_request_signature c env d url method body =
      c.sha512hex (String.intercalate "\n"
        ([pyUpper method, url, toString env.nowMs,
          ArgosTokenGenerator.generate_device_fingerprint c d env.nowMs] ++
         (body_digest_of c body).toList)) := by
  constructor
  · cases body with
    | none => rfl
    | some b =>
        cases hb : (b == "") with
        | true =>
            simp [EnhancedArgosTokenGenerator.generate_signature,
                  canonical_string_to_sign, body_digest_of, hb]
        | false =>
            simp [EnhancedArgosTokenGenerator.generate_signature,
                  canonical_string_to_sign, body_digest_of, hb]
  · cases body with
    | none => rfl
    | some b =>
        cases hb : (b == "") with
        | true =>
            simp [ArgosTokenGenerator.generate_request_signature, body_digest_of, hb]
        | false =>
            simp [ArgosTokenGenerator.generate_request_signature, body_digest_of, hb]

/-- C7 counterexample: at concrete inputs (GET u, no body, millisecond 5,
with the sha512 hexdigest instantiated as the identity so the signed string
is exposed), the signature computed by ArgosTokenGenerator's
generate_request_signature is NOT the digest of the canonical string
METHOD, URL, TOKEN, TIMESTAMP for any token whatsoever — neither in the
base64-wrapped form of the enhanced generator nor as a bare digest — because
the string it actually signs ends with the device fingerprint, not the
timestamp, and contains no token. -/
theorem C7_counterexample :
    ¬ ∃ token : String,
      (ArgosTokenGenerator.generate_request_signature c7crypto env0 dev0 "u" "GET" none =
        c7crypto.b64 (c7crypto.sha512hex (canonical_string_to_sign "GET" "u" token
          (toString env0.nowMs) none)) ∨
       ArgosTokenGenerator.generate_request_signature c7crypto env0 dev0 "u" "GET" none =
        c7crypto.sha512hex (canonical_string_to_sign "GET" "u" token
          (toString env0.nowMs) none)) := by
  rintro ⟨token, h | h⟩
  · have hd : (ArgosTokenGenerator.generate_request_signature c7crypto env0 dev0
        "u" "GET" none).data.head? =
        (c7crypto.b64 (c7crypto.sha512hex (canonical_string_to_sign "GET" "u" token
          (toString env0.nowMs) none))).data.head? :=
      congrArg (fun t : String => t.data.head?) h
    have hL : (ArgosTokenGenerator.generate_request_signature c7crypto env0 dev0
        "u" "GET" none).data.head? = some 'G' := by decide
    have hR : (c7crypto.b64 (c7crypto.sha512hex (canonical_string_to_sign "GET" "u"
        token (toString env0.nowMs) none))).data.head? = some 'b' := by
      show (("b64[" ++ canonical_string_to_sign "GET" "u" token
        (toString env0.nowMs) none ++ "]").data).head? = some 'b'
      rw [String.data_append, String.data_append]
      simp [List.head?_append]
    rw [hL, hR] at hd
    exact absurd hd (by decide)
  · have hd : (ArgosTokenGenerator.generate_request_signature c7crypto env0 dev0
        "u" "GET" none).data.getLast? =
        (c7crypto.sha512hex (canonical_string_to_sign "GET" "u" token
          (toString env0.nowMs) none)).data.getLast? :=
      congrArg (fun t : String => t.data.getLast?) h
    have hL : (ArgosTokenGenerator.generate_request_signature c7crypto env0 dev0
        "u" "GET" none).data.getLast? = some ']' := by decide
    have hR : (c7crypto.sha512hex (canonical_string_to_sign "GET" "u" token
        (toString env0.nowMs) none)).data.getLast? = some '5' := by
      show ((("GET" ++ "\n" ++ "u" ++ "\n" ++ token ++ "\n") ++ "5").data).getLast? = some '5'
      rw [String.data_append]
      rw [show ("5" : String).data = ['5'] from rfl]
      exact List.getLast?_concat _
    rw [hL, hR] at hd
    exact absurd hd (by decide)

/-- The concrete oracleRep stream is injective (distinct draws differ). -/
theorem oracleRep_injective : Function.Injective oracleRep.rand := by
  intro a b h
  have hlen := congrArg (fun s : String => s.data.length) h
  simpa [oracleRep] using hlen

/-- Every successful get_attestation_headers call returns a tracking-id header
that is a draw taken during this very call: its index lies at or above the
incoming cursor and strictly below the outgoing cursor. -/
theorem enhanced_tracking_fresh (c : Crypto) (env : Env) (o : Oracle)
    (s : EnhancedArgosTokenGenerator) (url method : String) (hb : Bool)
    (body : Option String) (mode : ArgosMode)
    (hf : env.fetchFail = none) :
    ∀ hdrs s1 ev,
      EnhancedArgosTokenGenerator.get_attestation_headers c env o s url method
        hb body mode = .ok (hdrs, s1, ev) →
      ∃ i, alookup hdrs "x-request-consistent-tracking-id" = some (o.rand i) ∧
        s.rng ≤ i ∧ i < s1.rng := by
  intro hdrs s1 ev hok
  cases hh : alookup s.token_cache
      (EnhancedArgosTokenGenerator.get_cache_key url method mode) with
  | some tap =>
      cases hexp : tap.token_record.is_expired env.now with
      | false =>
          rw [enhanced_get_hit c env o s url method hb body mode tap hh hexp] at hok
          have h := Except.ok.inj hok
          simp only [Prod.mk.injEq] at h
          obtain ⟨h1, h2, h3⟩ := h
          refine ⟨s.rng, ?_, Nat.le_refl _, ?_⟩
          · rw [← h1]
            simp [alookup, ArgosHeaderType.value]
          · rw [← h2]
            exact Nat.lt_succ_self _
      | true =>
          rw [enhanced_get_expired c env o s url method hb body mode tap hh hexp hf] at hok
          have h := Except.ok.inj hok
          simp only [Prod.mk.injEq] at h
          obtain ⟨h1, h2, h3⟩ := h
          refine ⟨s.rng + 1, ?_, Nat.le_succ _, ?_⟩
          · rw [← h1]
            simp [alookup, ArgosHeaderType.value]
          · rw [← h2]
            exact Nat.lt_succ_self _
  | none =>
      rw [enhanced_get_absent c env o s url method hb body mode hh hf] at hok
      have h := Except.ok.inj hok
      simp only [Prod.mk.injEq] at h
      obtain ⟨h1, h2, h3⟩ := h
      refine ⟨s.rng + 1, ?_, Nat.le_succ _, ?_⟩
      · rw [← h1]
        simp [alookup, ArgosHeaderType.value]
      · rw [← h2]
        exact Nat.lt_succ_self _

/-- C8 counterexample: on the simulator, two consecutive generate_token calls
for the same key return the IDENTICAL header map — the tracking id r2 drawn
during the first (miss) call is cached inside the header map and served again
on the second (hit) call with no fetch and no fresh draw — contradicting the
claim that consecutive calls always return different tracking ids. -/
theorem C8_counterexample :
    (ArgosTokenSimulator.generate_token toyCrypto env1 oracle0
      (ArgosTokenSimulator.generate_token toyCrypto env0 oracle0 sim0 "u" "POST" none).2.1
      "u" "POST" none).1 =
      (ArgosTokenSimulator.generate_token toyCrypto env0 oracle0 sim0 "u" "POST" none).1 ∧
    alookup (ArgosTokenSimulator.generate_token toyCrypto env0 oracle0 sim0
      "u" "POST" none).1 "x-request-consistent-tracking-id" = some "r2" ∧
    alookup (ArgosTokenSimulator.generate_token toyCrypto env1 oracle0
      (ArgosTokenSimulator.generate_token toyCrypto env0 oracle0 sim0 "u" "POST" none).2.1
      "u" "POST" none).1 "x-request-consistent-tracking-id" = some "r2" ∧
    (ArgosTokenSimulator.generate_token toyCrypto env1 oracle0
      (ArgosTokenSimulator.generate_token toyCrypto env0 oracle0 sim0 "u" "POST" none).2.1
      "u" "POST" none).2.2 = [] := by decide

/-- C8 (amended): in the enhanced generator the tracking id IS a fresh draw on
every call and is never cached (the cache stores TokenAndPolicy records, not
headers): any two consecutive successful get_attestation_headers calls — same
key or not, cache hit or miss — return different tracking-id headers whenever
the randomness stream is injective.  The simulator, by contrast, caches the
whole header map (see the counterexample). -/
theorem C8_tracking_amended (c : Crypto) (env env' : Env) (o : Oracle)
    (s : EnhancedArgosTokenGenerator)
    (url method url' method' : String) (hb hb' : Bool)
    (body body' : Option String) (mode mode' : ArgosMode)
    (hdrs1 : List (String × String)) (s1 : EnhancedArgosTokenGenerator)
    (ev1 : List TraceEvent)
    (hdrs2 : List (String × String)) (s2 : EnhancedArgosTokenGenerator)
    (ev2 : List TraceEvent)
    (hinj : Function.Injective o.rand)
    (hf1 : env.fetchFail = none) (hf2 : env'.fetchFail = none)
    (h1 : EnhancedArgosTokenGenerator.get_attestation_headers c env o s url method
      hb body mode = .ok (hdrs1, s1, ev1))
    (h2 : EnhancedArgosTokenGenerator.get_attestation_headers c env' o s1 url' method'
      hb' body' mode' = .ok (hdrs2, s2, ev2)) :
    alookup hdrs1 "x-request-consistent-tracking-id" ≠
      alookup hdrs2 "x-request-consistent-tracking-id" := by
  obtain ⟨i, hi, hge1, hlt1⟩ :=
    enhanced_tracking_fresh c env o s url method hb body mode hf1 hdrs1 s1 ev1 h1
  obtain ⟨j, hj, hge2, hlt2⟩ :=
    enhanced_tracking_fresh c env' o s1 url' method' hb' body' mode' hf2 hdrs2 s2 ev2 h2
  rw [hi, hj]
  intro he
  have hij : i = j := hinj (Option.some.inj he)
  omega

/-- Witness for the amended C8: two consecutive enhanced calls on egen0 (both
cache hits for the same key and the same cached token) return different
tracking ids. -/
theorem C8_tracking_amended_witness :
    alookup w8r1.1 "x-request-consistent-tracking-id" ≠
      alookup w8r2.1 "x-request-consistent-tracking-id" :=
  C8_tracking_amended toyCrypto env0 env1 oracleRep egen0 "u" "GET" "u" "GET"
    false false none none ArgosMode.STANDARD ArgosMode.STANDARD
    w8r1.1 w8r1.2.1 w8r1.2.2 w8r2.1 w8r2.2.1 w8r2.2.2
    oracleRep_injective rfl rfl rfl rfl

/-- C9 (amended): every successful header-producing call of the enhanced
generator, and every simulator miss, produce a header map with exactly the
three wire headers x-snapchat-att-token, x-snapchat-att-sign and
x-request-consistent-tracking-id, in that order; but the basic generator's
get_attestation_headers instead returns x-snapchat-att-token together with
X-Snapchat-Client-Version and X-Snapchat-Platform — no signature header and
no tracking header. -/
theorem C9_headers_amended (c : Crypto) (env : Env) (o : Oracle) :
    (∀ (s : EnhancedArgosTokenGenerator) (url method : String) (hb : Bool)
       (body : Option String) (mode : ArgosMode)
       (hdrs : List (String × String)) (s1 : EnhancedArgosTokenGenerator)
       (ev : List TraceEvent),
      env.fetchFail = none →
      EnhancedArgosTokenGenerator.get_attestation_headers c env o s url method
        hb body mode = .ok (hdrs, s1, ev) →
      hdrs.map Prod.fst =
        ["x-snapchat-att-token", "x-snapchat-att-sign", "x-request-consistent-tracking-id"])
    ∧ (∀ (sim : ArgosTokenSimulator) (url method : String) (body : Option String),
        alookup sim.token_cache (method ++ ":" ++ url) = none →
        (ArgosTokenSimulator.generate_token c env o sim url method body).1.map Prod.fst =
          ["x-snapchat-att-token", "x-snapchat-att-sign", "x-request-consistent-tracking-id"])
    ∧ (∀ (s : ArgosTokenGenerator) (url method : String) (body : Option String)
         (mode : ArgosMode),
        (ArgosTokenGenerator.get_attestation_headers c env s url method body mode).1.map
          Prod.fst =
          ["x-snapchat-att-token", "X-Snapchat-Client-Version", "X-Snapchat-Platform"]) := by
  refine ⟨?_, ?_, ?_⟩
  · intro s url method hb body mode hdrs s1 ev hf hok
    cases hh : alookup s.token_cache
        (EnhancedArgosTokenGenerator.get_cache_key url method mode) with
    | some tap =>
        cases hexp : tap.token_record.is_expired env.now with
        | false =>
            rw [enhanced_get_hit c env o s url method hb body mode tap hh hexp] at hok
            have h := Except.ok.inj hok
            simp only [Prod.mk.injEq] at h
            rw [← h.1]
            rfl
        | true =>
            rw [enhanced_get_expired c env o s url method hb body mode tap hh hexp hf] at hok
            have h := Except.ok.inj hok
            simp only [Prod.mk.injEq] at h
            rw [← h.1]
            rfl
    | none =>
        rw [enhanced_get_absent c env o s url method hb body mode hh hf] at hok
        have h := Except.ok.inj hok
        simp only [Prod.mk.injEq] at h
        rw [← h.1]
        rfl
  · intro sim url method body hh
    simp [ArgosTokenSimulator.generate_token, hh]
  · intro s url method body mode
    rfl

/-- Witness for the amended C9 on concrete states of all three generators. -/
theorem C9_headers_amended_witness :
    (okOr edflt (EnhancedArgosTokenGenerator.get_attestation_headers toyCrypto env0
      oracle0 egen0 "u" "GET" false none ArgosMode.STANDARD)).1.map Prod.fst =
      ["x-snapchat-att-token", "x-snapchat-att-sign", "x-request-consistent-tracking-id"] ∧
    (ArgosTokenSimulator.generate_token toyCrypto env0 oracle0 sim0 "u" "POST" none).1.map
      Prod.fst =
      ["x-snapchat-att-token", "x-snapchat-att-sign", "x-request-consistent-tracking-id"] ∧
    (ArgosTokenGenerator.get_attestation_headers toyCrypto env0 bgen0 "u" "GET" none
      ArgosMode.STANDARD).1.map Prod.fst =
      ["x-snapchat-att-token", "X-Snapchat-Client-Version", "X-Snapchat-Platform"] :=
  ⟨(C9_headers_amended toyCrypto env0 oracle0).1 egen0 "u" "GET" false none
      ArgosMode.STANDARD
      (okOr edflt (EnhancedArgosTokenGenerator.get_attestation_headers toyCrypto env0
        oracle0 egen0 "u" "GET" false none ArgosMode.STANDARD)).1
      (okOr edflt (EnhancedArgosTokenGenerator.get_attestation_headers toyCrypto env0
        oracle0 egen0 "u" "GET" false none ArgosMode.STANDARD)).2.1
      (okOr edflt (EnhancedArgosTokenGenerator.get_attestation_headers toyCrypto env0
        oracle0 egen0 "u" "GET" false none ArgosMode.STANDARD)).2.2
      rfl rfl,
   (C9_headers_amended toyCrypto env0 oracle0).2.1 sim0 "u" "POST" none (by decide),
   (C9_headers_amended toyCrypto env0 oracle0).2.2 bgen0 "u" "GET" none ArgosMode.STANDARD⟩

/-- C9 counterexample: at a concrete input the basic generator's orchestrator
entry point get_attestation_headers produces the header names
x-snapchat-att-token, X-Snapchat-Client-Version and X-Snapchat-Platform:
the signature and tracking headers of the wire contract are absent and two
extra headers outside the contract are present. -/
theorem C9_counterexample :
    (ArgosTokenGenerator.get_attestation_headers toyCrypto env0 bgen0 "u" "GET" none
      ArgosMode.STANDARD).1.map Prod.fst =
      ["x-snapchat-att-token", "X-Snapchat-Client-Version", "X-Snapchat-Platform"] ∧
    "x-snapchat-att-sign" ∉ ((ArgosTokenGenerator.get_attestation_headers toyCrypto env0
      bgen0 "u" "GET" none ArgosMode.STANDARD).1.map Prod.fst) ∧
    "x-request-consistent-tracking-id" ∉ ((ArgosTokenGenerator.get_attestation_headers
      toyCrypto env0 bgen0 "u" "GET" none ArgosMode.STANDARD).1.map Prod.fst) ∧
    ("X-Snapchat-Platform" : String) ∉
      (["x-snapchat-att-token", "x-snapchat-att-sign",
        "x-request-consistent-tracking-id"] : List String) := by decide

/-- C10: the cache key is computed only from method, url and mode — the key
function does not take the body at all — so two calls that differ only in
their body map to the same key, and when an unexpired entry exists for that
key both calls receive the identical cached token header, in the enhanced and
the basic generator alike. -/
theorem C10_cache_key_no_body (c : Crypto) (env : Env) (o : Oracle) :
    (∀ (url method : String) (mode : ArgosMode),
      EnhancedArgosTokenGenerator.get_cache_key url method mode =
        method ++ ":" ++ url ++ ":" ++ mode.value)
    ∧ (∀ (s : EnhancedArgosTokenGenerator) (url method : String) (hb1 hb2 : Bool)
         (body1 body2 : Option String) (mode : ArgosMode) (tap : TokenAndPolicy),
        alookup s.token_cache
          (EnhancedArgosTokenGenerator.get_cache_key url method mode) = some tap →
        tap.token_record.is_expired env.now = false →
        ((EnhancedArgosTokenGenerator.get_attestation_headers c env o s url method
            hb1 body1 mode).toOption.map
              (fun x => alookup x.1 "x-snapchat-att-token")) =
            some (some tap.token_record.token) ∧
        ((EnhancedArgosTokenGenerator.get_attestation_headers c env o s url method
            hb2 body2 mode).toOption.map
              (fun x => alookup x.1 "x-snapchat-att-token")) =
            some (some tap.token_record.token))
    ∧ (∀ (s : ArgosTokenGenerator) (url method : String) (body1 body2 : Option String)
         (mode : ArgosMode) (tok : String) (exp : Int),
        alookup s.token_cache (url ++ ":" ++ method ++ ":" ++ mode.value) = some (tok, exp) →
        env.now < exp →
        (ArgosTokenGenerator.generate_token c env s url method body1 mode).1 = tok ∧
        (ArgosTokenGenerator.generate_token c env s url method body2 mode).1 = tok) := by
  refine ⟨?_, ?_, ?_⟩
  · intro url method mode
    rfl
  · intro s url method hb1 hb2 body1 body2 mode tap h1 h2
    constructor
    · rw [enhanced_get_hit c env o s url method hb1 body1 mode tap h1 h2]
      simp [Except.toOption, alookup, ArgosHeaderType.value]
    · rw [enhanced_get_hit c env o s url method hb2 body2 mode tap h1 h2]
      simp [Except.toOption, alookup, ArgosHeaderType.value]
  · intro s url method body1 body2 mode tok exp h1 h2
    constructor
    · simp [ArgosTokenGenerator.generate_token, h1, h2]
    · simp [ArgosTokenGenerator.generate_token, h1, h2]

/-- Witness for C10: two calls on egen0 and bgen0 differing only in their body
both return the cached token. -/
theorem C10_cache_key_no_body_witness :
    ((EnhancedArgosTokenGenerator.get_attestation_headers toyCrypto env0 oracle0 egen0
        "u" "GET" true (some "A") ArgosMode.STANDARD).toOption.map
          (fun x => alookup x.1 "x-snapchat-att-token")) =
        some (some tap0.token_record.token) ∧
    ((EnhancedArgosTokenGenerator.get_attestation_headers toyCrypto env0 oracle0 egen0
        "u" "GET" true (some "B") ArgosMode.STANDARD).toOption.map
          (fun x => alookup x.1 "x-snapchat-att-token")) =
        some (some tap0.token_record.token) ∧
    (ArgosTokenGenerator.generate_token toyCrypto env0 bgen0 "u" "GET" (some "A")
      ArgosMode.STANDARD).1 = "TOKB" ∧
    (ArgosTokenGenerator.generate_token toyCrypto env0 bgen0 "u" "GET" (some "B")
      ArgosMode.STANDARD).1 = "TOKB" :=
  ⟨((C10_cache_key_no_body toyCrypto env0 oracle0).2.1 egen0 "u" "GET" true true
      (some "A") (some "B") ArgosMode.STANDARD tap0 (by decide) (by decide)).1,
   ((C10_cache_key_no_body toyCrypto env0 oracle0).2.1 egen0 "u" "GET" true true
      (some "A") (some "B") ArgosMode.STANDARD tap0 (by decide) (by decide)).2,
   ((C10_cache_key_no_body toyCrypto env0 oracle0).2.2 bgen0 "u" "GET"
      (some "A") (some "B") ArgosMode.STANDARD "TOKB" 1000 (by decide) (by decide)).1,
   ((C10_cache_key_no_body toyCrypto env0 oracle0).2.2 bgen0 "u" "GET"
      (some "A") (some "B") ArgosMode.STANDARD "TOKB" 1000 (by decide) (by decide)).2⟩
